import Mathlib

/-!
Shallow embedding of the query-helper / unit-of-work layer of the
`TaskGroup/dbpsql` repository (`app/back/pkg/postgres/postgres.go` and
`app/back/pkg/models/errors/errors.go`), together with theorems settling
the specification claims about it.

Go `error` values are modelled by `Option GoErr` (`none` = `nil`) or, for
functions returning `(T, error)`, by `Except GoErr T` (the Go value on the
error side is the zero value and carries no information).  `fmt.Errorf`
with a `%w` verb wraps its base error (visible to `errors.Is`); any `%v`
argument is message text only, modelled by `GoErr.wrapv`, whose second
component is not unwrapped by `GoErr.is`.

A `Queryer` (the Go interface over `*sqlx.DB` / `*sqlx.Tx`) is modelled as
a record of response functions: each helper first prepares the named
statement (`prepareNamed`), then performs exactly one of `SelectContext`
(`selectRows`), `GetContext` (`getRow`) or `ExecContext` (`exec`) on it,
which is all the Go helpers ever do with a prepared statement.
-/

namespace Dbpsql

/-- Go error values relevant to the package: the `database/sql` sentinel
`sql.ErrNoRows`, the seven domain sentinels of
`pkg/models/errors/errors.go`, plain `errors.New` / non-wrapping
`fmt.Errorf` values, and the two wrapping shapes used by `postgres.go`:
`wrapMsg msg base` for `fmt.Errorf` with one `%w` (unwraps to `base`) and
`wrapv base cause` for `fmt.Errorf` whose first verb `%w` wraps `base` and
whose `%v` renders `cause` as text (not unwrapped). -/
inductive GoErr where
  | errNoRows     : GoErr
  | notFound      : GoErr
  | notAuthorized : GoErr
  | internal      : GoErr
  | notUpdated    : GoErr
  | alreadyExists : GoErr
  | invalidParams : GoErr
  | accessDenied  : GoErr
  | errorf (msg : String) : GoErr
  | wrapMsg (msg : String) (base : GoErr) : GoErr
  | wrapv (base : GoErr) (cause : GoErr) : GoErr
deriving DecidableEq, Repr

/-- Go `errors.Is(err, target)`: true when `err` equals `target` or some
error in `err`'s unwrap chain does.  Only the `%w`-wrapped base is in the
chain; the `%v` cause of `wrapv` is message text. -/
def GoErr.is : GoErr → GoErr → Bool
  | .wrapMsg m base, target => GoErr.wrapMsg m base == target || base.is target
  | .wrapv base cause, target => GoErr.wrapv base cause == target || base.is target
  | e, target => e == target

/-- `fmt.Errorf("ошибка подготовки запроса: %w", err)` used by every
helper when `PrepareNamedContext` fails. -/
def GoErr.wrapPrepare (e : GoErr) : GoErr :=
  .wrapMsg "ошибка подготовки запроса" e

/-- `fmt.Errorf("%w: %v", e.ErrInternal, err)`: wraps the `ErrInternal`
sentinel, rendering the driver error as text. -/
def GoErr.wrapInternal (cause : GoErr) : GoErr :=
  .wrapv .internal cause

/-- Named-parameter mapping passed alongside each SQL template
(`map[string]interface{}` in Go, values opaque here). -/
abbrev Params := List (String × String)

instance {ε α : Type} [DecidableEq ε] [DecidableEq α] : DecidableEq (Except ε α)
  | .error e, .error f =>
    if h : e = f then .isTrue (by rw [h]) else .isFalse (by simp [h])
  | .error _, .ok _ => .isFalse (by simp)
  | .ok _, .error _ => .isFalse (by simp)
  | .ok a, .ok b =>
    if h : a = b then .isTrue (by rw [h]) else .isFalse (by simp [h])

/-- Result of `ExecContext`: `RowsAffected()` itself returns
`(int64, error)`. -/
structure ExecResult where
  rowsAffected : Except GoErr Int
deriving DecidableEq, Repr

/-- The `Queryer` interface of `postgres.go`, as the responses the
underlying database handle gives to the one statement-level operation
each helper performs after `PrepareNamedContext`.  `α` is the row type
the caller's destination slice/value decodes to. -/
structure Queryer (α : Type) where
  prepareNamed : String → Option GoErr
  selectRows   : String → Params → Except GoErr (List α)
  getRow       : String → Params → Except GoErr α
  exec         : String → Params → Except GoErr ExecResult

/-- `QueryMultiple`: prepares the named statement, runs `SelectContext`,
translates `sql.ErrNoRows` to `ErrNotFound` and any other driver error to
an `ErrInternal` wrap. -/
def QueryMultiple {α : Type} (q : Queryer α) (query : String) (params : Params) :
    Except GoErr (List α) :=
  match q.prepareNamed query with
  | some err => .error (GoErr.wrapPrepare err)
  | none =>
    match q.selectRows query params with
    | .error err =>
      if err.is .errNoRows then .error .notFound
      else .error (GoErr.wrapInternal err)
    | .ok rows => .ok rows

/-- `QuerySingle`: prepares the named statement, runs `GetContext`,
translates `sql.ErrNoRows` to `ErrNotFound` and any other driver error to
an `ErrInternal` wrap. -/
def QuerySingle {α : Type} (q : Queryer α) (query : String) (params : Params) :
    Except GoErr α :=
  match q.prepareNamed query with
  | some err => .error (GoErr.wrapPrepare err)
  | none =>
    match q.getRow query params with
    | .error err =>
      if err.is .errNoRows then .error .notFound
      else .error (GoErr.wrapInternal err)
    | .ok v => .ok v

/-- `fmt.Errorf("%w: запись не добавлена", e.ErrInternal)`, returned by
`InsertRecord` when the returning clause yielded zero ids. -/
def insertEmptyErr : GoErr := .wrapMsg "запись не добавлена" .internal

/-- `InsertRecord`: `QueryMultiple` into `[]int64`; first id on a
non-empty result, `ErrInternal` wrap on an empty one. -/
def InsertRecord (q : Queryer Int) (query : String) (params : Params) :
    Except GoErr Int :=
  match QueryMultiple q query params with
  | .error err => .error err
  | .ok ids =>
    match ids with
    | id :: _ => .ok id
    | [] => .error insertEmptyErr

/-- `UpdateRecordWithResultId` delegates to `InsertRecord` verbatim. -/
def UpdateRecordWithResultId (q : Queryer Int) (query : String) (params : Params) :
    Except GoErr Int :=
  InsertRecord q query params

/-- `DeleteRecord`: prepare, `ExecContext`, check `RowsAffected`;
`ErrNotFound` when fewer than one row was affected. -/
def DeleteRecord {α : Type} (q : Queryer α) (query : String) (params : Params) :
    Option GoErr :=
  match q.prepareNamed query with
  | some err => some (GoErr.wrapPrepare err)
  | none =>
    match q.exec query params with
    | .error err => some (GoErr.wrapInternal err)
    | .ok res =>
      match res.rowsAffected with
      | .error err => some (GoErr.wrapInternal err)
      | .ok n => if n < 1 then some .notFound else none

/-- `CheckExistence`: `QuerySingle` into a `bool`, returning the Go pair
`(bool, error)`.  The `errors.Is(err, sql.ErrNoRows)` branch keeps the
source's dead check: `QuerySingle` never returns `sql.ErrNoRows` itself. -/
def CheckExistence (q : Queryer Bool) (query : String) (params : Params) :
    Bool × Option GoErr :=
  match QuerySingle q query params with
  | .error err =>
    if err.is .errNoRows then (false, none)
    else (false, some (GoErr.wrapInternal err))
  | .ok b => (b, none)

/-- The `fmt.Sprintf` wrapping `CheckExistenceWithError` applies to the
caller's template. -/
def existsWrap (query : String) : String :=
  "SELECT EXISTS(" ++ query ++ ") AS ex"

/-- `CheckExistenceWithError`: wraps the template in `SELECT EXISTS(...)`,
runs `CheckExistence` on the wrapped query, and treats a `true` result as
the `ErrAlreadyExists` failure. -/
def CheckExistenceWithError (q : Queryer Bool) (query : String) (params : Params) :
    Option GoErr :=
  let r := CheckExistence q (existsWrap query) params
  match r.2 with
  | some err => some err
  | none => if r.1 then some .alreadyExists else none

/-- `template.OnlyId`, the one-column row type used by `AddRecord`. -/
structure OnlyId where
  id : Int
deriving DecidableEq, Repr

/-- Outcome of a Go call that may also terminate by a runtime panic
(index out of range). -/
inductive GoRes (α : Type) where
  | ok (a : α) : GoRes α
  | err (e : GoErr) : GoRes α
  | panics : GoRes α
deriving DecidableEq, Repr

/-- `AddRecord`: `QueryMultiple` into `[]template.OnlyId`, then returns
`res[0].Id` with no emptiness guard — on a successful empty result the
index expression panics. -/
def AddRecord (q : Queryer OnlyId) (query : String) (params : Params) :
    GoRes Int :=
  match QueryMultiple q query params with
  | .error e => .err (.wrapMsg "ошибка добавления" e)
  | .ok res =>
    match res with
    | r :: _ => .ok r.id
    | [] => .panics

/-- A begun `*sqlx.Tx`: what matters to `Do` is the outcome its `Commit`
would report (`Rollback`'s outcome is discarded by the source, kept for
fidelity). -/
structure TxModel where
  commitErr : Option GoErr
  rollbackErr : Option GoErr
deriving DecidableEq, Repr

/-- The `PostgresUnitOfWork` struct: the pooled handle is identified by a
tag (its identity is all `GetQueryer` exposes), `tx` is the transaction
field, `nil` until `Do` first begins one and never reset afterwards. -/
structure PostgresUnitOfWork where
  dbTag : Nat
  tx : Option TxModel
deriving DecidableEq, Repr

/-- `NewUnitOfWork`: fresh unit of work over a pooled handle, `tx` field
left nil. -/
def NewUnitOfWork (dbTag : Nat) : PostgresUnitOfWork :=
  { dbTag := dbTag, tx := none }

/-- What `GetQueryer` hands back: the pooled-connection `*sqlx.DB` or the
transaction-bound `*sqlx.Tx`. -/
inductive QueryerRef where
  | dbQ (dbTag : Nat) : QueryerRef
  | txQ (t : TxModel) : QueryerRef
deriving DecidableEq, Repr

/-- `GetQueryer`: the transaction handle when the `tx` field is non-nil,
the pooled handle otherwise. -/
def PostgresUnitOfWork.GetQueryer (u : PostgresUnitOfWork) : QueryerRef :=
  match u.tx with
  | some t => .txQ t
  | none => .dbQ u.dbTag

/-- Behaviour of the caller-supplied function `fn` inside `Do`: it either
returns a Go error value or panics with some payload. -/
inductive FnOut where
  | ret (e : Option GoErr) : FnOut
  | panics (p : String) : FnOut
deriving DecidableEq, Repr

/-- Transaction-lifecycle events of one `Do` call, listed in execution
order. -/
inductive TxEvent where
  | beganTx : TxEvent
  | rolledBack : TxEvent
  | committed : TxEvent
  | reraised (p : String) : TxEvent
deriving DecidableEq, Repr

/-- How a `Do` call terminates: a normal return carrying a Go error
value, or propagation of the panic raised by `fn`. -/
inductive DoOutcome where
  | normal (e : Option GoErr) : DoOutcome
  | panicked (p : String) : DoOutcome
deriving DecidableEq, Repr

/-- Result of one `Do` call: how it terminated, the transaction events in
order, and the unit-of-work state it leaves behind. -/
structure DoRes where
  outcome : DoOutcome
  events : List TxEvent
  uow : PostgresUnitOfWork
deriving DecidableEq, Repr

/-- `Do`: begins a transaction (`beginTxx` is the outcome `BeginTxx`
reports), stores it in the `tx` field, runs `fn` on the updated receiver;
the deferred handler rolls back and re-raises on panic, rolls back on a
non-nil `fn` error, and otherwise commits, the commit outcome becoming
the returned error.  The `tx` field is never reset. -/
def PostgresUnitOfWork.Do (u : PostgresUnitOfWork)
    (beginTxx : Except GoErr TxModel) (fn : PostgresUnitOfWork → FnOut) : DoRes :=
  match beginTxx with
  | .error e => { outcome := .normal (some e), events := [], uow := u }
  | .ok tx =>
    let u1 : PostgresUnitOfWork := { u with tx := some tx }
    match fn u1 with
    | .panics p =>
      { outcome := .panicked p
        events := [.beganTx, .rolledBack, .reraised p]
        uow := u1 }
    | .ret (some e) =>
      { outcome := .normal (some e)
        events := [.beganTx, .rolledBack]
        uow := u1 }
    | .ret none =>
      { outcome := .normal tx.commitErr
        events := [.beganTx, .committed]
        uow := u1 }

/-- `MaxRetries` of `postgres.go`. -/
def MaxRetries : Nat := 50

/-- `RetryInterval` of `postgres.go`, in seconds. -/
def RetryIntervalSeconds : Nat := 5

/-- Pool configuration constants of `postgres.go`
(`ConnMaxLifetime = 5 * time.Minute`, in seconds here). -/
def MaxOpenConns : Nat := 5

def MaxIdleConns : Nat := 5

def ConnMaxLifetimeSeconds : Nat := 5 * 60

/-- A `*sqlx.DB` handle as `InitDB` returns it: the pool settings applied
to it. -/
structure DBHandle where
  maxOpenConns : Nat
  maxIdleConns : Nat
  connMaxLifetimeSeconds : Nat
deriving DecidableEq, Repr

/-- The handle `InitDB` returns on success: a fresh connection with the
three pool bounds configured. -/
def configuredDB : DBHandle :=
  { maxOpenConns := MaxOpenConns
    maxIdleConns := MaxIdleConns
    connMaxLifetimeSeconds := ConnMaxLifetimeSeconds }

/-- Message of the final `fmt.Errorf` of `InitDB` (its `%d` is
`MaxRetries`); the `%w` wraps the last attempt's error. -/
def connectFailMsg : String :=
  "не удалось подключиться к базе данных после " ++ toString MaxRetries ++ " попыток"

/-- Observable result of `InitDB`: the returned `(db, error)` pair, the
number of `connectDB` attempts made, and the total seconds slept
(one `RetryInterval` sleep after every failed attempt). -/
structure InitDBRes where
  result : Except GoErr DBHandle
  attempts : Nat
  sleptSeconds : Nat
deriving DecidableEq, Repr

/-- The retry loop of `InitDB`.  `connect i` is the outcome of the
`i`-th `connectDB` call (`none` = success); `i` is the loop counter,
`remaining` the iterations left, `attempts`/`slept` the counts so far and
`lastErr` the error of the most recent failed attempt (the `err` variable
the final `fmt.Errorf` wraps). -/
def initDBAux (connect : Nat → Option GoErr) :
    Nat → Nat → Nat → Nat → Option GoErr → InitDBRes
  | _, 0, attempts, slept, lastErr =>
    { result := .error (match lastErr with
        | some e => .wrapMsg connectFailMsg e
        | none => .errorf connectFailMsg)
      attempts := attempts
      sleptSeconds := slept }
  | i, remaining + 1, attempts, slept, _ =>
    match connect i with
    | none =>
      { result := .ok configuredDB
        attempts := attempts + 1
        sleptSeconds := slept }
    | some e =>
      initDBAux connect (i + 1) remaining (attempts + 1)
        (slept + RetryIntervalSeconds) (some e)
  termination_by _ remaining _ _ _ => remaining

/-- `InitDB`: up to `MaxRetries` attempts of `connectDB`, sleeping
`RetryInterval` after each failure; on success configures the pool and
returns the handle, after exhausting the budget returns an error wrapping
the last failure. -/
def InitDB (connect : Nat → Option GoErr) : InitDBRes :=
  initDBAux connect 0 MaxRetries 0 0 none

/-! ### Concrete queryers used as witnesses and counterexamples -/

/-- A queryer whose prepare always succeeds and whose statement-level
operations give fixed responses, independent of query and parameters. -/
def constQueryer {α : Type} (sel : Except GoErr (List α)) (get : Except GoErr α)
    (ex : Except GoErr ExecResult) : Queryer α :=
  { prepareNamed := fun _ => none
    selectRows := fun _ _ => sel
    getRow := fun _ _ => get
    exec := fun _ _ => ex }

def qDel0 : Queryer Unit :=
  constQueryer (.ok []) (.error .errNoRows) (.ok { rowsAffected := .ok 0 })

def qDel1 : Queryer Unit :=
  constQueryer (.ok []) (.error .errNoRows) (.ok { rowsAffected := .ok 1 })

def qIns7 : Queryer Int :=
  constQueryer (.ok [7]) (.error .errNoRows) (.error (.errorf "unused"))

def qIns0 : Queryer Int :=
  constQueryer (.ok []) (.error .errNoRows) (.error (.errorf "unused"))

def qEmptyOnlyId : Queryer OnlyId :=
  constQueryer (.ok []) (.error .errNoRows) (.error (.errorf "unused"))

def qNoRows : Queryer Bool :=
  constQueryer (.error .errNoRows) (.error .errNoRows) (.error (.errorf "unused"))

/-- A database state distinguishing the raw template `SELECT 1` (whose
boolean evaluates to `false`) from its `SELECT EXISTS` wrapping (whose
boolean evaluates to `true`). -/
def qExistsDiff : Queryer Bool :=
  { prepareNamed := fun _ => none
    selectRows := fun _ _ => .ok []
    getRow := fun qs _ => if qs = existsWrap "SELECT 1" then .ok true else .ok false
    exec := fun _ _ => .error (.errorf "unused") }

def qAbsent : Queryer Bool :=
  constQueryer (.ok []) (.ok false) (.error (.errorf "unused"))

/-! ### Claim theorems: query executor -/

/-- Claim C6: for every `DeleteRecord` call whose statement executes
without a driver error (prepare, exec and `RowsAffected` all succeed), an
affected-row count of `0` yields the `NotFound` error and a count of at
least `1` yields a nil error. -/
theorem deleteRecord_rowcount {α : Type} (q : Queryer α) (query : String)
    (params : Params) (res : ExecResult) (n : Int)
    (hprep : q.prepareNamed query = none)
    (hexec : q.exec query params = .ok res)
    (hra : res.rowsAffected = .ok n) :
    (n = 0 → DeleteRecord q query params = some .notFound) ∧
    (1 ≤ n → DeleteRecord q query params = none) := by
  unfold DeleteRecord
  simp only [hprep, hexec, hra]
  constructor
  · intro h
    subst h
    simp
  · intro h
    simp [not_lt.mpr h]

theorem deleteRecord_rowcount_witness :
    DeleteRecord qDel0 "DELETE FROM t WHERE id = :id" [] = some .notFound ∧
    DeleteRecord qDel1 "DELETE FROM t WHERE id = :id" [] = none :=
  ⟨(deleteRecord_rowcount qDel0 "DELETE FROM t WHERE id = :id" []
      { rowsAffected := .ok 0 } 0 rfl rfl rfl).1 rfl,
   (deleteRecord_rowcount qDel1 "DELETE FROM t WHERE id = :id" []
      { rowsAffected := .ok 1 } 1 rfl rfl rfl).2 le_rfl⟩

/-- Claim C7: for every `InsertRecord` call whose query executes without
error, a non-empty id sequence yields its first id with a nil error, and
an empty sequence yields an error classified as `Internal`
(`errors.Is(err, ErrInternal)` holds). -/
theorem insertRecord_first_or_internal (q : Queryer Int) (query : String)
    (params : Params) (ids : List Int)
    (hprep : q.prepareNamed query = none)
    (hsel : q.selectRows query params = .ok ids) :
    (∀ i rest, ids = i :: rest → InsertRecord q query params = .ok i) ∧
    (ids = [] →
      InsertRecord q query params = .error insertEmptyErr ∧
      insertEmptyErr.is .internal = true) := by
  unfold InsertRecord QueryMultiple
  rw [hprep, hsel]
  constructor
  · intro i rest h
    subst h
    rfl
  · intro h
    subst h
    exact ⟨rfl, by decide⟩

theorem insertRecord_first_or_internal_witness :
    InsertRecord qIns7 "INSERT" [] = .ok 7 ∧
    (InsertRecord qIns0 "INSERT" [] = .error insertEmptyErr ∧
      insertEmptyErr.is .internal = true) :=
  ⟨(insertRecord_first_or_internal qIns7 "INSERT" [] [7] rfl rfl).1 7 [] rfl,
   (insertRecord_first_or_internal qIns0 "INSERT" [] [] rfl rfl).2 rfl⟩

/-- Claim C10: `UpdateRecordWithResultId` returns exactly the same
`(id, error)` result as `InsertRecord` on the same inputs; in particular
its empty-result failure is the `Internal`-classified error, not
`NotUpdated`. -/
theorem updateRecordWithResultId_eq_insertRecord (q : Queryer Int)
    (query : String) (params : Params) :
    UpdateRecordWithResultId q query params = InsertRecord q query params ∧
    (q.prepareNamed query = none → q.selectRows query params = .ok [] →
      UpdateRecordWithResultId q query params = .error insertEmptyErr ∧
      insertEmptyErr.is .internal = true ∧
      insertEmptyErr.is .notUpdated = false) := by
  refine ⟨rfl, fun hprep hsel => ?_⟩
  unfold UpdateRecordWithResultId InsertRecord QueryMultiple
  rw [hprep, hsel]
  exact ⟨rfl, by decide, by decide⟩

theorem updateRecordWithResultId_eq_insertRecord_witness :
    UpdateRecordWithResultId qIns0 "UPDATE" [] = InsertRecord qIns0 "UPDATE" [] ∧
    (UpdateRecordWithResultId qIns0 "UPDATE" [] = .error insertEmptyErr ∧
      insertEmptyErr.is .internal = true ∧
      insertEmptyErr.is .notUpdated = false) :=
  have h := updateRecordWithResultId_eq_insertRecord qIns0 "UPDATE" []
  ⟨h.1, h.2 rfl rfl⟩

/-- Claim C9: there is an input — a queryer on which the query succeeds
with zero rows — where `AddRecord` reaches `res[0]` on an empty sequence
and panics, while `InsertRecord` on the analogous input is guarded and
returns the `Internal` error instead. -/
theorem addRecord_empty_panics :
    QueryMultiple qEmptyOnlyId "INSERT" [] = .ok [] ∧
    AddRecord qEmptyOnlyId "INSERT" [] = .panics ∧
    InsertRecord qIns0 "INSERT" [] = .error insertEmptyErr :=
  ⟨rfl, rfl, rfl⟩

/-- Claim C4 (divergence witness): on a queryer whose `GetContext`
reports the driver's no-rows outcome (`sql.ErrNoRows`), `QuerySingle`
pre-translates it to `ErrNotFound`, so the `errors.Is(err, sql.ErrNoRows)`
branch of `CheckExistence` never fires and the call returns `false`
together with an `Internal`-wrapped error — not the nil error the spec
requires. -/
theorem checkExistence_noRows_not_nil :
    QuerySingle qNoRows "SELECT" [] = .error .notFound ∧
    GoErr.notFound.is .errNoRows = false ∧
    CheckExistence qNoRows "SELECT" [] =
      (false, some (GoErr.wrapInternal .notFound)) ∧
    some (GoErr.wrapInternal .notFound) ≠ (none : Option GoErr) :=
  ⟨rfl, rfl, rfl, by decide⟩

/-- Claim C5 (counterexample): the claimed equivalence is stated against
`CheckExistence` on the *same* template, but `CheckExistenceWithError`
queries the `SELECT EXISTS(...)`-wrapped template; a database state
distinguishing the two refutes the iff at a concrete input. -/
theorem checkExistenceWithError_not_same_template :
    ¬ (CheckExistenceWithError qExistsDiff "SELECT 1" [] = some .alreadyExists ↔
        (CheckExistence qExistsDiff "SELECT 1" []).1 = true) := by
  decide

/-- Helper: every error `CheckExistence` returns is an
`ErrInternal`-wrap, hence never the bare `ErrAlreadyExists` sentinel. -/
lemma checkExistence_error_shape (q : Queryer Bool) (query : String)
    (params : Params) (e : GoErr)
    (h : (CheckExistence q query params).2 = some e) :
    ∃ c, e = GoErr.wrapInternal c := by
  unfold CheckExistence at h
  cases hq : QuerySingle q query params with
  | error err =>
    rw [hq] at h
    by_cases hi : err.is .errNoRows
    · simp [hi] at h
    · simp [hi] at h
      exact ⟨err, h.symm⟩
  | ok b =>
    rw [hq] at h
    simp at h

/-- Claim C5 (amended): `CheckExistenceWithError` returns `AlreadyExists`
iff `CheckExistence` on the `SELECT EXISTS(...)`-wrapped template with
the same parameters returns `(true, nil)`; when that wrapped check
reports the row absent (`(false, nil)`) it returns a nil error. -/
theorem checkExistenceWithError_iff_wrapped (q : Queryer Bool)
    (query : String) (params : Params) :
    (CheckExistenceWithError q query params = some .alreadyExists ↔
      CheckExistence q (existsWrap query) params = (true, none)) ∧
    (CheckExistence q (existsWrap query) params = (false, none) →
      CheckExistenceWithError q query params = none) := by
  rcases hr : CheckExistence q (existsWrap query) params with ⟨b, oe⟩
  simp only [CheckExistenceWithError, hr]
  cases oe with
  | some err =>
    obtain ⟨c, hc⟩ := checkExistence_error_shape q (existsWrap query) params err
      (by rw [hr])
    subst hc
    constructor
    · constructor
      · intro h
        simp [GoErr.wrapInternal] at h
      · intro h
        simp at h
    · intro h
      simp at h
  | none =>
    cases b with
    | true =>
      exact ⟨by simp, by simp⟩
    | false =>
      exact ⟨by simp, fun _ => by simp⟩

theorem checkExistenceWithError_iff_wrapped_witness :
    (CheckExistenceWithError qAbsent "SELECT 1" [] = some .alreadyExists ↔
      CheckExistence qAbsent (existsWrap "SELECT 1") [] = (true, none)) ∧
    CheckExistenceWithError qAbsent "SELECT 1" [] = none :=
  have h := checkExistenceWithError_iff_wrapped qAbsent "SELECT 1" []
  ⟨h.1, h.2 rfl⟩

/-! ### Claim theorems: unit of work -/

def uow0 : PostgresUnitOfWork := NewUnitOfWork 0

def tx0 : TxModel := { commitErr := none, rollbackErr := none }

/-- Claim C1: for every `Do` call whose `BeginTxx` succeeds, a nil return
from `fn` leads to the transaction being committed (and the commit
outcome returned), while a non-nil error from `fn` leads to the
transaction being rolled back and `Do` returning that same error. -/
theorem do_commit_on_nil_rollback_on_error (u : PostgresUnitOfWork)
    (tx : TxModel) (fn : PostgresUnitOfWork → FnOut) :
    (fn { u with tx := some tx } = .ret none →
      (u.Do (.ok tx) fn).events = [.beganTx, .committed] ∧
      (u.Do (.ok tx) fn).outcome = .normal tx.commitErr) ∧
    (∀ e : GoErr, fn { u with tx := some tx } = .ret (some e) →
      (u.Do (.ok tx) fn).events = [.beganTx, .rolledBack] ∧
      (u.Do (.ok tx) fn).outcome = .normal (some e)) := by
  constructor
  · intro h
    simp [PostgresUnitOfWork.Do, h]
  · intro e h
    simp [PostgresUnitOfWork.Do, h]

theorem do_commit_on_nil_rollback_on_error_witness :
    ((uow0.Do (.ok tx0) (fun _ => .ret none)).events =
        [.beganTx, .committed] ∧
      (uow0.Do (.ok tx0) (fun _ => .ret none)).outcome = .normal tx0.commitErr) ∧
    ((uow0.Do (.ok tx0) (fun _ => .ret (some .invalidParams))).events =
        [.beganTx, .rolledBack] ∧
      (uow0.Do (.ok tx0) (fun _ => .ret (some .invalidParams))).outcome =
        .normal (some .invalidParams)) :=
  ⟨(do_commit_on_nil_rollback_on_error uow0 tx0 (fun _ => .ret none)).1 rfl,
   (do_commit_on_nil_rollback_on_error uow0 tx0
      (fun _ => .ret (some .invalidParams))).2 .invalidParams rfl⟩

/-- Claim C2: for every `Do` call in which `fn` panics after the
transaction was begun, the event order is begin, then rollback run to
completion, then re-raise, and the propagated panic carries the same
payload. -/
theorem do_panic_rolls_back_then_reraises (u : PostgresUnitOfWork)
    (tx : TxModel) (fn : PostgresUnitOfWork → FnOut) (p : String)
    (h : fn { u with tx := some tx } = .panics p) :
    (u.Do (.ok tx) fn).outcome = .panicked p ∧
    (u.Do (.ok tx) fn).events = [.beganTx, .rolledBack, .reraised p] := by
  simp [PostgresUnitOfWork.Do, h]

theorem do_panic_rolls_back_then_reraises_witness :
    (uow0.Do (.ok tx0) (fun _ => .panics "boom")).outcome = .panicked "boom" ∧
    (uow0.Do (.ok tx0) (fun _ => .panics "boom")).events =
      [.beganTx, .rolledBack, .reraised "boom"] :=
  do_panic_rolls_back_then_reraises uow0 tx0 (fun _ => .panics "boom") "boom" rfl

/-- Claim C3 (counterexample): after a `Do` call has completed normally
(the transaction committed, none active any more), `GetQueryer` still
returns the transaction-bound queryer, because `Do` never resets the `tx`
field — contradicting the claim that every state after a completed `Do`
yields the pooled-connection queryer. -/
theorem getQueryer_after_do_counterexample :
    (uow0.Do (.ok tx0) (fun _ => .ret none)).outcome = .normal none ∧
    (uow0.Do (.ok tx0) (fun _ => .ret none)).events = [.beganTx, .committed] ∧
    ((uow0.Do (.ok tx0) (fun _ => .ret none)).uow).GetQueryer = .txQ tx0 ∧
    ((uow0.Do (.ok tx0) (fun _ => .ret none)).uow).GetQueryer ≠ .dbQ uow0.dbTag :=
  ⟨rfl, rfl, rfl, by decide⟩

/-- Claim C3 (amended): `GetQueryer` returns the pooled-connection
queryer exactly when the `tx` field is nil — before any transaction was
begun — and returns the transaction-bound queryer whenever the field is
set; since `Do` never clears the field, every `Do` whose `BeginTxx`
succeeded leaves a state whose `GetQueryer` is the transaction-bound
queryer, even after the call completed. -/
theorem getQueryer_txfield (u : PostgresUnitOfWork) :
    (u.tx = none → u.GetQueryer = .dbQ u.dbTag) ∧
    (∀ t, u.tx = some t → u.GetQueryer = .txQ t) ∧
    (∀ (tx : TxModel) (fn : PostgresUnitOfWork → FnOut),
      ((u.Do (.ok tx) fn).uow).GetQueryer = .txQ tx) := by
  refine ⟨fun h => ?_, fun t h => ?_, fun tx fn => ?_⟩
  · simp [PostgresUnitOfWork.GetQueryer, h]
  · simp [PostgresUnitOfWork.GetQueryer, h]
  · unfold PostgresUnitOfWork.Do
    cases hf : fn { u with tx := some tx } with
    | panics p => simp [hf, PostgresUnitOfWork.GetQueryer]
    | ret e =>
      cases e with
      | none => simp [hf, PostgresUnitOfWork.GetQueryer]
      | some err => simp [hf, PostgresUnitOfWork.GetQueryer]

theorem getQueryer_txfield_witness :
    uow0.GetQueryer = .dbQ uow0.dbTag ∧
    ({ uow0 with tx := some tx0 } : PostgresUnitOfWork).GetQueryer = .txQ tx0 ∧
    ((uow0.Do (.ok tx0) (fun _ => .ret none)).uow).GetQueryer = .txQ tx0 :=
  have h := getQueryer_txfield uow0
  have h1 := getQueryer_txfield ({ uow0 with tx := some tx0 } : PostgresUnitOfWork)
  ⟨h.1 rfl, h1.2.1 tx0 rfl, h.2.2 tx0 (fun _ => .ret none)⟩

/-! ### Claim theorems: connection retry loop -/

lemma initDBAux_succ_ok (connect : Nat → Option GoErr)
    (i rem attempts slept : Nat) (last : Option GoErr)
    (h : connect i = none) :
    initDBAux connect i (rem + 1) attempts slept last =
      { result := .ok configuredDB
        attempts := attempts + 1
        sleptSeconds := slept } := by
  unfold initDBAux
  rw [h]

lemma initDBAux_succ_fail (connect : Nat → Option GoErr)
    (i rem attempts slept : Nat) (last : Option GoErr) (e : GoErr)
    (h : connect i = some e) :
    initDBAux connect i (rem + 1) attempts slept last =
      initDBAux connect (i + 1) rem (attempts + 1)
        (slept + RetryIntervalSeconds) (some e) := by
  conv_lhs => unfold initDBAux
  rw [h]

/-- If the first `k` attempts from index `i` fail and attempt `i + k`
succeeds (with `k` within the remaining budget), the loop returns the
configured handle after exactly `k + 1` further attempts and `k` further
sleeps. -/
lemma initDBAux_success_after (connect : Nat → Option GoErr) (k : Nat) :
    ∀ (i remaining attempts slept : Nat) (last : Option GoErr),
    k < remaining →
    (∀ j, j < k → (connect (i + j)).isSome) →
    connect (i + k) = none →
    initDBAux connect i remaining attempts slept last =
      { result := .ok configuredDB
        attempts := attempts + k + 1
        sleptSeconds := slept + k * RetryIntervalSeconds } := by
  induction k with
  | zero =>
    intro i remaining attempts slept last hlt _ hsucc
    cases remaining with
    | zero => exact absurd hlt (Nat.lt_irrefl 0)
    | succ r =>
      rw [initDBAux_succ_ok connect i r attempts slept last
        (by simpa using hsucc)]
      simp
  | succ k ih =>
    intro i remaining attempts slept last hlt hfail hsucc
    cases remaining with
    | zero => exact absurd hlt (Nat.not_lt_zero _)
    | succ r =>
      obtain ⟨e0, he0⟩ := Option.isSome_iff_exists.mp
        (by simpa using hfail 0 (Nat.succ_pos k))
      rw [initDBAux_succ_fail connect i r attempts slept last e0 he0]
      rw [ih (i + 1) r (attempts + 1) (slept + RetryIntervalSeconds) (some e0)
        (by omega)
        (fun j hj => by
          have := hfail (j + 1) (by omega)
          simpa [Nat.add_assoc, Nat.add_comm 1 j] using this)
        (by
          have := hsucc
          simpa [Nat.add_assoc, Nat.add_comm 1 k] using this)]
      simp only [InitDBRes.mk.injEq, true_and]
      constructor
      · omega
      · simp only [RetryIntervalSeconds]
        ring

/-- If all `m + 1` attempts from index `i` fail, the last with error `e`,
the loop exhausts the budget and returns the wrapping error, having made
`m + 1` further attempts and slept after each one. -/
lemma initDBAux_all_fail (connect : Nat → Option GoErr) (m : Nat) :
    ∀ (i attempts slept : Nat) (last : Option GoErr) (e : GoErr),
    (∀ j, j < m → (connect (i + j)).isSome) →
    connect (i + m) = some e →
    initDBAux connect i (m + 1) attempts slept last =
      { result := .error (.wrapMsg connectFailMsg e)
        attempts := attempts + m + 1
        sleptSeconds := slept + (m + 1) * RetryIntervalSeconds } := by
  induction m with
  | zero =>
    intro i attempts slept last e _ he
    rw [initDBAux_succ_fail connect i 0 attempts slept last e (by simpa using he)]
    unfold initDBAux
    simp [RetryIntervalSeconds]
  | succ m ih =>
    intro i attempts slept last e hfail he
    obtain ⟨e0, he0⟩ := Option.isSome_iff_exists.mp
      (by simpa using hfail 0 (Nat.succ_pos m))
    rw [initDBAux_succ_fail connect i (m + 1) attempts slept last e0 he0]
    rw [ih (i + 1) (attempts + 1) (slept + RetryIntervalSeconds) (some e0) e
      (fun j hj => by
        have := hfail (j + 1) (by omega)
        simpa [Nat.add_assoc, Nat.add_comm 1 j] using this)
      (by
        have := he
        simpa [Nat.add_assoc, Nat.add_comm 1 m] using this)]
    simp only [InitDBRes.mk.injEq, true_and]
    constructor
    · omega
    · simp only [RetryIntervalSeconds]
      ring

/-- Claim C8: `InitDB` attempts connection up to `MaxRetries = 50` times
with a fixed `RetryInterval = 5`-second sleep after each failed attempt;
when the first three attempts fail and the fourth succeeds it returns the
configured pool handle with a nil error having made exactly four attempts
(and slept three intervals); when all fifty attempts fail it returns an
error wrapping the last underlying failure after fifty attempts. -/
theorem initDB_retry_policy (c1 c2 : Nat → Option GoErr) (e : GoErr)
    (h10 : (c1 0).isSome) (h11 : (c1 1).isSome) (h12 : (c1 2).isSome)
    (h13 : c1 3 = none)
    (h2 : ∀ j, j < 49 → (c2 j).isSome) (h2e : c2 49 = some e) :
    MaxRetries = 50 ∧ RetryIntervalSeconds = 5 ∧
    (InitDB c1).result = .ok configuredDB ∧
    (InitDB c1).attempts = 4 ∧
    (InitDB c1).sleptSeconds = 3 * RetryIntervalSeconds ∧
    (InitDB c2).result = .error (.wrapMsg connectFailMsg e) ∧
    (InitDB c2).attempts = 50 := by
  have hc1 : InitDB c1 =
      { result := .ok configuredDB
        attempts := 0 + 3 + 1
        sleptSeconds := 0 + 3 * RetryIntervalSeconds } := by
    unfold InitDB MaxRetries
    exact initDBAux_success_after c1 3 0 50 0 0 none (by omega)
      (fun j hj => by
        interval_cases j
        · simpa using h10
        · simpa using h11
        · simpa using h12)
      (by simpa using h13)
  have hc2 : InitDB c2 =
      { result := .error (.wrapMsg connectFailMsg e)
        attempts := 0 + 49 + 1
        sleptSeconds := 0 + (49 + 1) * RetryIntervalSeconds } := by
    unfold InitDB MaxRetries
    exact initDBAux_all_fail c2 49 0 0 0 none e
      (fun j hj => by simpa using h2 j hj)
      (by simpa using h2e)
  refine ⟨rfl, rfl, ?_, ?_, ?_, ?_, ?_⟩
  · rw [hc1]
  · rw [hc1]
  · rw [hc1]
    simp
  · rw [hc2]
  · rw [hc2]

def cFail3 : Nat → Option GoErr :=
  fun i => if i < 3 then some (.errorf "connection refused") else none

def cAllFail : Nat → Option GoErr :=
  fun _ => some (.errorf "connection refused")

theorem initDB_retry_policy_witness :
    MaxRetries = 50 ∧ RetryIntervalSeconds = 5 ∧
    (InitDB cFail3).result = .ok configuredDB ∧
    (InitDB cFail3).attempts = 4 ∧
    (InitDB cFail3).sleptSeconds = 3 * RetryIntervalSeconds ∧
    (InitDB cAllFail).result =
      .error (.wrapMsg connectFailMsg (.errorf "connection refused")) ∧
    (InitDB cAllFail).attempts = 50 :=
  initDB_retry_policy cFail3 cAllFail (.errorf "connection refused")
    rfl rfl rfl rfl (fun _ _ => rfl) rfl

end Dbpsql
